import Mathlib

/-!
Verification of the tuya_monitor integration (custom_components/tuya_monitor).

The development embeds the token lifecycle and signed-request subsystem as
executable Lean definitions translated from the Python source:

* the two HMAC-SHA256 signers (`get_device_sign` in `__init__.py`,
  `generate_sign` in `token_manager.py`, and the signer and the inline
  token-request signing of `config_flow.py`), on top of a full executable
  SHA-256 / HMAC / hex / base64 stack;
* the region-to-base-URL tables of `token_manager.py` and of the coordinator;
* the response-envelope handling of `refresh_tuya_token` and `get_new_token`
  (`token_manager.py`), with the HTTP outcome supplied as explicit data;
* the per-cycle coordinator update `TuyaDeviceCoordinator._async_update_data`
  (`__init__.py`) as a pure step function over the shared config dict, which
  records the network calls a cycle performs, the config mutation, and the
  normalized property list;
* the sensor projection `TuyaPropertySensor.native_value` (`sensor.py`).

Spec-side definitions (named `sign_device_request`, `sign_token_request`, and
the filtering / fast-path formulations inside the theorems) are written from
the specification's words and compared against the source-derived definitions.
-/

namespace TuyaMonitor

/-! ## SHA-256, HMAC-SHA256, hex and base64 (executable, byte-level) -/

/-- 2^32, the word modulus of SHA-256. -/
def w32 : Nat := 4294967296

/-- Right rotation of a 32-bit word. -/
def rotr (n x : Nat) : Nat :=
  ((x >>> n) ||| (x <<< (32 - n))) % w32

/-- The 64 SHA-256 round constants (FIPS 180-4, written in decimal). -/
def sha256K : List Nat :=
  [1116352408, 1899447441, 3049323471, 3921009573, 961987163, 1508970993,
   2453635748, 2870763221, 3624381080, 310598401, 607225278, 1426881987,
   1925078388, 2162078206, 2614888103, 3248222580, 3835390401, 4022224774,
   264347078, 604807628, 770255983, 1249150122, 1555081692, 1996064986,
   2554220882, 2821834349, 2952996808, 3210313671, 3336571891, 3584528711,
   113926993, 338241895, 666307205, 773529912, 1294757372, 1396182291,
   1695183700, 1986661051, 2177026350, 2456956037, 2730485921, 2820302411,
   3259730800, 3345764771, 3516065817, 3600352804, 4094571909, 275423344,
   430227734, 506948616, 659060556, 883997877, 958139571, 1322822218,
   1537002063, 1747873779, 1955562222, 2024104815, 2227730452, 2361852424,
   2428436474, 2756734187, 3204031479, 3329325298]

/-- The SHA-256 initial hash value (FIPS 180-4, written in decimal). -/
def sha256H0 : List Nat :=
  [1779033703, 3144134277, 1013904242, 2773480762, 1359893119, 2600822924,
   528734635, 1541459225]

/-- Big-endian byte expansion of `n`, `k` bytes wide. -/
def natToBytesBE (k n : Nat) : List Nat :=
  match k with
  | 0 => []
  | Nat.succ k2 => natToBytesBE k2 (n / 256) ++ [n % 256]

/-- SHA-256 padding: a 0x80 byte, zeros to 56 mod 64, then the bit length. -/
def sha256Pad (msg : List Nat) : List Nat :=
  let len := msg.length
  let r := (len + 1) % 64
  let zeros := if r ≤ 56 then 56 - r else 120 - r
  msg ++ [0x80] ++ List.replicate zeros 0 ++ natToBytesBE 8 (len * 8)

/-- Split a list into chunks of length `k`, with the list length as fuel. -/
def chunksAux (k : Nat) : Nat → List Nat → List (List Nat)
  | 0, _ => []
  | _, [] => []
  | Nat.succ fuel, l => l.take k :: chunksAux k fuel (l.drop k)

/-- Split a list into chunks of length `k`. -/
def chunks (k : Nat) (l : List Nat) : List (List Nat) :=
  chunksAux k l.length l

/-- Groups of four big-endian bytes into 32-bit words. -/
def bytesToWordsBE : List Nat → List Nat
  | b0 :: b1 :: b2 :: b3 :: rest =>
      (b0 * 16777216 + b1 * 65536 + b2 * 256 + b3) :: bytesToWordsBE rest
  | _ => []

/-- SHA-256 message-schedule sigma-0. -/
def smallSigma0 (x : Nat) : Nat := (rotr 7 x) ^^^ (rotr 18 x) ^^^ (x >>> 3)

/-- SHA-256 message-schedule sigma-1. -/
def smallSigma1 (x : Nat) : Nat := (rotr 17 x) ^^^ (rotr 19 x) ^^^ (x >>> 10)

/-- SHA-256 round Sigma-0. -/
def bigSigma0 (x : Nat) : Nat := (rotr 2 x) ^^^ (rotr 13 x) ^^^ (rotr 22 x)

/-- SHA-256 round Sigma-1. -/
def bigSigma1 (x : Nat) : Nat := (rotr 6 x) ^^^ (rotr 11 x) ^^^ (rotr 25 x)

/-- Extend the 16 message-schedule words by `fuel` further words; the
accumulator is kept reversed, newest word first. -/
def extendSched : Nat → List Nat → List Nat
  | 0, acc => acc
  | Nat.succ fuel, acc =>
      let w2 := acc.getD 1 0
      let w7 := acc.getD 6 0
      let w15 := acc.getD 14 0
      let w16 := acc.getD 15 0
      let nw := (smallSigma1 w2 + w7 + smallSigma0 w15 + w16) % w32
      extendSched fuel (nw :: acc)

/-- The full 64-word message schedule of one block. -/
def messageSchedule (block16 : List Nat) : List Nat :=
  (extendSched 48 block16.reverse).reverse

/-- One round of the SHA-256 compression function; `kw` is the round constant
paired with the schedule word. The 32-bit complement of `e` stands for
bitwise negation in the choice function. -/
def sha256Round (st : List Nat) (kw : Nat × Nat) : List Nat :=
  match st with
  | [a, b, c, d, e, f, g, h] =>
      let t1 := (h + bigSigma1 e + ((e &&& f) ^^^ ((w32 - 1 - e) &&& g)) + kw.1 + kw.2) % w32
      let t2 := (bigSigma0 a + ((a &&& b) ^^^ (a &&& c) ^^^ (b &&& c))) % w32
      [(t1 + t2) % w32, a, b, c, (d + t1) % w32, e, f, g]
  | other => other

/-- SHA-256 compression of one 16-word block into the running hash. -/
def sha256Compress (h : List Nat) (block16 : List Nat) : List Nat :=
  let w := messageSchedule block16
  let st := (sha256K.zip w).foldl sha256Round h
  (h.zip st).map (fun p => (p.1 + p.2) % w32)

/-- SHA-256 of a byte string, as 32 digest bytes. -/
def sha256 (msg : List Nat) : List Nat :=
  let blocks := chunks 64 (sha256Pad msg)
  let hh := blocks.foldl (fun h blk => sha256Compress h (bytesToWordsBE blk)) sha256H0
  hh.foldr (fun wd acc => natToBytesBE 4 wd ++ acc) []

/-- UTF-8 bytes of one character, as Python's str.encode produces them. -/
def utf8Char (c : Char) : List Nat :=
  let n := c.toNat
  if n < 0x80 then [n]
  else if n < 0x800 then [0xC0 ||| (n >>> 6), 0x80 ||| (n &&& 0x3F)]
  else if n < 0x10000 then
    [0xE0 ||| (n >>> 12), 0x80 ||| ((n >>> 6) &&& 0x3F), 0x80 ||| (n &&& 0x3F)]
  else
    [0xF0 ||| (n >>> 18), 0x80 ||| ((n >>> 12) &&& 0x3F),
     0x80 ||| ((n >>> 6) &&& 0x3F), 0x80 ||| (n &&& 0x3F)]

/-- UTF-8 encoding of a string, modelling Python's s.encode with utf-8. -/
def utf8Encode (s : String) : List Nat :=
  s.data.foldr (fun c acc => utf8Char c ++ acc) []

/-- HMAC-SHA256 (RFC 2104) of a message under a key, as 32 digest bytes. -/
def hmacSha256 (key msg : List Nat) : List Nat :=
  let key1 := if key.length > 64 then sha256 key else key
  let key0 := key1 ++ List.replicate (64 - key1.length) 0
  let inner := sha256 ((key0.map (fun b => b ^^^ 0x36)) ++ msg)
  sha256 ((key0.map (fun b => b ^^^ 0x5c)) ++ inner)

/-- The sixteen lowercase hex digits. -/
def hexChars : List Char :=
  "0123456789abcdef".data

/-- Lowercase hex encoding of a byte string, as Python's hexdigest yields. -/
def hexdigest (bytes : List Nat) : String :=
  String.mk (bytes.foldr (fun b acc => hexChars.getD (b / 16) '0' :: hexChars.getD (b % 16) '0' :: acc) [])

/-- Python's str.upper on ASCII strings. -/
def pyUpper (s : String) : String :=
  String.mk (s.data.map Char.toUpper)

/-- The base64 alphabet. -/
def base64Chars : List Char :=
  "ABCDEFGHIJKLMNOPQRSTUVWXYZabcdefghijklmnopqrstuvwxyz0123456789+/".data

/-- Standard base64 encoding with padding, three bytes to four characters. -/
def b64encodeAux : List Nat → List Char
  | [] => []
  | [b0] =>
      [base64Chars.getD (b0 / 4) 'A', base64Chars.getD ((b0 % 4) * 16) 'A', '=', '=']
  | [b0, b1] =>
      [base64Chars.getD (b0 / 4) 'A', base64Chars.getD ((b0 % 4) * 16 + b1 / 16) 'A',
       base64Chars.getD ((b1 % 16) * 4) 'A', '=']
  | b0 :: b1 :: b2 :: rest =>
      base64Chars.getD (b0 / 4) 'A' :: base64Chars.getD ((b0 % 4) * 16 + b1 / 16) 'A' ::
      base64Chars.getD ((b1 % 16) * 4 + b2 / 64) 'A' :: base64Chars.getD (b2 % 64) 'A' ::
      b64encodeAux rest

/-- Base64 encoding of a byte string, as Python's b64encode yields. -/
def b64encode (bytes : List Nat) : String :=
  String.mk (b64encodeAux bytes)

/-! ## The signers of the source

Python concatenates the strings first and then encodes them as UTF-8, so each
signer below UTF-8-encodes the concatenated canonical string. -/

/-- Source signer of device requests (get_device_sign, tuya_monitor/init
module): message is client_id + access_token + t, HMAC-SHA256 keyed by the
secret, hexdigest, then upper-cased. -/
def get_device_sign (client_id access_token secret t : String) : String :=
  pyUpper (hexdigest (hmacSha256 (utf8Encode secret) (utf8Encode (client_id ++ access_token ++ t))))

/-- Source signer of config_flow.py (its generate_sign): message is
token + t, HMAC-SHA256 keyed by the client secret, hexdigest, upper-cased. -/
def config_flow_generate_sign (client_secret token t : String) : String :=
  pyUpper (hexdigest (hmacSha256 (utf8Encode client_secret) (utf8Encode (token ++ t))))

/-- Source signer of token requests (generate_sign, token_manager.py):
string to sign is client_id + timestamp + nonce, HMAC-SHA256 keyed by the
client secret, raw digest, base64-encoded. -/
def generate_sign (client_id client_secret timestamp nonce : String) : String :=
  b64encode (hmacSha256 (utf8Encode client_secret) (utf8Encode (client_id ++ timestamp ++ nonce)))

/-- Source inline token-request signing of config_flow.get_new_token:
string to sign is client_id + timestamp + nonce, raw HMAC-SHA256 digest,
base64-encoded. -/
def config_flow_token_sign (client_id client_secret timestamp nonce : String) : String :=
  b64encode (hmacSha256 (utf8Encode client_secret) (utf8Encode (client_id ++ timestamp ++ nonce)))

/-- Spec-side device-request signer, written from the specification's words:
canonical string = access_token ++ timestamp_ms, HMAC-SHA256 keyed by
client_secret, hex-encoded, upper-cased. The client_id argument is not part
of the spec's canonical string. -/
def sign_device_request (client_id access_token client_secret timestamp_ms : String) : String :=
  pyUpper (hexdigest (hmacSha256 (utf8Encode client_secret) (utf8Encode (access_token ++ timestamp_ms))))

/-- Spec-side device-request signer amended to the source's canonical string:
client_id ++ access_token ++ timestamp_ms, HMAC-SHA256 keyed by
client_secret, hex-encoded, upper-cased. -/
def sign_device_request_amended (client_id access_token client_secret timestamp_ms : String) : String :=
  pyUpper (hexdigest (hmacSha256 (utf8Encode client_secret) (utf8Encode (client_id ++ access_token ++ timestamp_ms))))

/-- Spec-side token-request signer, written from the specification's words:
canonical string = client_id ++ timestamp_ms ++ nonce, HMAC-SHA256 keyed by
client_secret, raw digest, base64-encoded. -/
def sign_token_request (client_id client_secret timestamp_ms nonce : String) : String :=
  b64encode (hmacSha256 (utf8Encode client_secret) (utf8Encode (client_id ++ timestamp_ms ++ nonce)))

/-! ## Region endpoints -/

/-- The region-to-base-URL table of token_manager.py. -/
def TUYA_REGION_ENDPOINTS : List (String × String) :=
  [("us", "https://openapi.tuyaus.com"),
   ("eu", "https://openapi.tuyaeu.com"),
   ("cn", "https://openapi.tuyacn.com"),
   ("in", "https://openapi.tuyain.com")]

/-- Base URL used by both token operations:
TUYA_REGION_ENDPOINTS.get(region, TUYA_REGION_ENDPOINTS["us"]); the default
entry for "us" is the literal written here. -/
def tokenBaseUrl (region : String) : String :=
  (TUYA_REGION_ENDPOINTS.lookup region).getD "https://openapi.tuyaus.com"

/-- The inline region_map dict of the coordinator update, identical to the
token_manager table. -/
def coordinator_region_map : List (String × String) :=
  [("us", "https://openapi.tuyaus.com"),
   ("eu", "https://openapi.tuyaeu.com"),
   ("cn", "https://openapi.tuyacn.com"),
   ("in", "https://openapi.tuyain.com")]

/-- Base URL used by the device fetch:
region_map.get(config.get(CONF_REGION, "us"), us-url). The argument is the
optional CONF_REGION entry of the config dict. -/
def deviceBaseUrl (region : Option String) : String :=
  (coordinator_region_map.lookup (region.getD "us")).getD "https://openapi.tuyaus.com"

/-! ## Token operations (token_manager.py)

The HTTP outcome of one request is supplied as explicit data; the fields
mirror, in the order the source inspects them, transport failure (any
exception around the request, including the 10-second timeout), the status
code, whether the body parses as JSON, the parsed success flag
(data.get("success", False)) and the parsed result object
(data.get("result", {}), with none standing for a missing or empty result).
Both operations sit in a try block whose handler returns None, so every
failure shape yields none rather than an exception; in particular a result
lacking expire_time makes int(expire_time) raise, which the handler turns
into none as well. -/

/-- The fields of a parsed token-endpoint result object. -/
structure TokenResult where
  access_token : String
  refresh_token : String
  expire_time : Option Int
deriving DecidableEq

/-- Explicit outcome of one token-endpoint HTTP exchange. -/
structure TokenResponse where
  transportError : Bool
  status : Nat
  jsonOk : Bool
  success : Bool
  result : Option TokenResult
deriving DecidableEq

/-- The dict a successful token operation returns: the two tokens, the
vendor ttl expire_time, and expiration_time = int(time.time()) + expire_time
computed at install time. -/
structure TokenInfo where
  access_token : String
  refresh_token : String
  expire_time : Int
  expiration_time : Int
deriving DecidableEq

/-- refresh_tuya_token of token_manager.py: GET {base}/v1.0/token/{refresh_token},
then the envelope checks in source order; `now` is int(time.time()) when the
successful response is processed. -/
def refresh_tuya_token (client_id client_secret refresh_token region : String)
    (resp : TokenResponse) (now : Int) : Option TokenInfo :=
  if resp.transportError then none
  else if resp.status ≠ 200 then none
  else if !resp.jsonOk then none
  else if !resp.success then none
  else match resp.result with
    | none => none
    | some r =>
      match r.expire_time with
      | none => none
      | some e => some ⟨r.access_token, r.refresh_token, e, now + e⟩

/-- get_new_token of token_manager.py: GET {base}/v1.0/token?grant_type=1,
with the same envelope handling as refresh_tuya_token. -/
def get_new_token (client_id client_secret region : String)
    (resp : TokenResponse) (now : Int) : Option TokenInfo :=
  if resp.transportError then none
  else if resp.status ≠ 200 then none
  else if !resp.jsonOk then none
  else if !resp.success then none
  else match resp.result with
    | none => none
    | some r =>
      match r.expire_time with
      | none => none
      | some e => some ⟨r.access_token, r.refresh_token, e, now + e⟩

/-! ## The coordinator update (__init__.py, _async_update_data)

The shared config dict is embedded as a structure holding the entries the
update reads and writes; CONF_REFRESH_TOKEN and CONF_TOKEN_EXPIRATION may be
absent (the source tests membership resp. reads with default 0). The device
response is embedded like the token responses, with result the parsed
data.get("result", []) list. The step function returns the config after the
cycle, the network calls the cycle performed in order, the access token the
device request was signed with, and the cycle's outcome (UpdateFailed or the
normalized property dict). Header and URL strings do not influence control
flow and are covered by the standalone signer and base-URL definitions. -/

/-- The config-dict entries the coordinator update touches. -/
structure TuyaConfig where
  client_id : String
  client_secret : String
  region : String
  access_token : String
  refresh_token : Option String
  token_expiration : Option Int
deriving DecidableEq

/-- One item of the device status response list, with its code and value
fields read by .get (absent fields give none). -/
structure StatusItem where
  code : Option String
  value : Option String
deriving DecidableEq

/-- Explicit outcome of the device-status HTTP exchange. -/
structure DeviceResponse where
  transportError : Bool
  status : Nat
  jsonOk : Bool
  success : Bool
  result : List StatusItem
deriving DecidableEq

/-- One normalized property reading, as appended by the filtering loop. -/
structure PropReading where
  code : Option String
  value : Option String
deriving DecidableEq

/-- The network calls a cycle can perform. -/
inductive NetCall
  | refreshToken
  | newToken
  | deviceFetch
deriving DecidableEq

/-- Outcome of one coordinator cycle: an UpdateFailed or the properties. -/
inductive UpdateResult
  | failed (msg : String)
  | data (properties : List PropReading)
deriving DecidableEq

/-- Result of one embedded coordinator cycle. -/
structure StepResult where
  config : TuyaConfig
  calls : List NetCall
  fetch_access_token : String
  result : UpdateResult
deriving DecidableEq

/-- The membership test `code in self.properties` of the filtering loop;
a missing code (None) is never a member of the string list. -/
def codeMatches (props : List String) (code : Option String) : Bool :=
  match code with
  | some c => props.contains c
  | none => false

/-- The filtering loop over the status items: filter_properties is
len(self.properties) > 0, and an item is appended when filtering is off or
its code is among the configured properties. -/
def filterStatusItems (props : List String) (result : List StatusItem) : List PropReading :=
  let filter_properties : Bool := decide (props.length > 0)
  result.foldl
    (fun acc item =>
      if !filter_properties || codeMatches props item.code then
        acc ++ [⟨item.code, item.value⟩]
      else acc)
    []

/-- Envelope handling and normalization of the device response, in source
order: transport error, non-200 status, JSON parse failure, success flag,
the empty-result early return, then the filtering loop. -/
def deviceOutcome (props : List String) (devResp : DeviceResponse) : UpdateResult :=
  if devResp.transportError then .failed "Error communicating with Tuya API"
  else if devResp.status ≠ 200 then .failed "API returned an error status code"
  else if !devResp.jsonOk then .failed "Failed to parse API response"
  else if !devResp.success then .failed "API request was not successful"
  else if devResp.result.isEmpty then .data []
  else .data (filterStatusItems props devResp.result)

/-- Installing a successful token result into the config dict: the update of
CONF_ACCESS_TOKEN, CONF_REFRESH_TOKEN and CONF_TOKEN_EXPIRATION. -/
def installTokenInfo (cfg : TuyaConfig) (info : TokenInfo) : TuyaConfig :=
  { cfg with
      access_token := info.access_token,
      refresh_token := some info.refresh_token,
      token_expiration := some info.expiration_time }

/-- The token-maintenance prelude of the cycle: when
current_time + 300 > config.get(CONF_TOKEN_EXPIRATION, 0) the cycle tries
refresh_tuya_token (only if CONF_REFRESH_TOKEN is present), falls back to
get_new_token when that returned None or no refresh token existed, and
installs a successful result into the config; on a double failure the config
is left untouched. Returns the config after the prelude and the token
network calls made, in order. -/
def tokenMaintenance (cfg : TuyaConfig) (now : Int)
    (refreshResp newTokenResp : TokenResponse) : TuyaConfig × List NetCall :=
  if now + 300 > cfg.token_expiration.getD 0 then
    match cfg.refresh_token with
    | some rt =>
      match refresh_tuya_token cfg.client_id cfg.client_secret rt cfg.region refreshResp now with
      | some info => (installTokenInfo cfg info, [NetCall.refreshToken])
      | none =>
        match get_new_token cfg.client_id cfg.client_secret cfg.region newTokenResp now with
        | some info => (installTokenInfo cfg info, [NetCall.refreshToken, NetCall.newToken])
        | none => (cfg, [NetCall.refreshToken, NetCall.newToken])
    | none =>
      match get_new_token cfg.client_id cfg.client_secret cfg.region newTokenResp now with
      | some info => (installTokenInfo cfg info, [NetCall.newToken])
      | none => (cfg, [NetCall.newToken])
  else (cfg, [])

/-- One full _async_update_data cycle: the token-maintenance prelude, then
the signed device request (signed with the access token read from the config
after the prelude) and its response handling. -/
def asyncUpdateData (cfg : TuyaConfig) (props : List String) (now : Int)
    (refreshResp newTokenResp : TokenResponse) (devResp : DeviceResponse) : StepResult :=
  let prelude := tokenMaintenance cfg now refreshResp newTokenResp
  { config := prelude.1,
    calls := prelude.2 ++ [NetCall.deviceFetch],
    fetch_access_token := prelude.1.access_token,
    result := deviceOutcome props devResp }

/-- native_value of TuyaPropertySensor (sensor.py): none when the
coordinator holds no data, else the value of the first reading whose code
equals the sensor's property code, none when no reading matches. -/
def native_value (data : Option (List PropReading)) (property_code : String) : Option String :=
  match data with
  | none => none
  | some properties =>
    match properties.find? (fun p => p.code == some property_code) with
    | some p => p.value
    | none => none

/-- The coordinator data the sensors see after a cycle: the property list on
success, nothing fresh on a failed cycle. -/
def coordinatorData : UpdateResult → Option (List PropReading)
  | .failed _ => none
  | .data ps => some ps

/-- Two poll cycles (two devices) that both read the shared config in the
same window, before either cycle's token installation lands: the network
calls of the interleaving, in order. -/
def twoCycleCalls (cfg : TuyaConfig) (propsA propsB : List String) (now : Int)
    (rA nA rB nB : TokenResponse) (dA dB : DeviceResponse) : List NetCall :=
  (asyncUpdateData cfg propsA now rA nA dA).calls ++
  (asyncUpdateData cfg propsB now rB nB dB).calls

/-- Number of token-endpoint network calls in a trace. -/
def countTokenCalls (calls : List NetCall) : Nat :=
  (calls.filter (fun c => c == NetCall.refreshToken || c == NetCall.newToken)).length

/-! ## Concrete fixtures for witnesses and counterexamples -/

/-- A successful token-endpoint exchange: access token A2, refresh token R2,
ttl 7200, matching the end-to-end scenario of the specification. -/
def tokenRespOK : TokenResponse := ⟨false, 200, true, true, some ⟨"A2", "R2", some 7200⟩⟩

/-- A failing token-endpoint exchange: status 404 with no result object. -/
def tokenRespBad : TokenResponse := ⟨false, 404, true, true, none⟩

/-- A successful device exchange whose result list is empty. -/
def devRespEmpty : DeviceResponse := ⟨false, 200, true, true, []⟩

/-- A successful device exchange reporting temp, humidity and battery. -/
def devRespThree : DeviceResponse :=
  ⟨false, 200, true, true,
   [⟨some "temp", some "21"⟩, ⟨some "humidity", some "40"⟩, ⟨some "battery", some "90"⟩]⟩

/-- A config whose token is far from expiry (expiration instant 1000). -/
def cfgFast : TuyaConfig := ⟨"clientid", "secret", "us", "oldtoken", some "refreshtoken", some 1000⟩

/-- A config whose token is about to expire (expiration instant 1). -/
def cfgNear : TuyaConfig := ⟨"clientid", "secret", "us", "oldtoken", some "refreshtoken", some 1⟩

/-- A near-expiry config holding no refresh token. -/
def cfgNoRefresh : TuyaConfig := ⟨"clientid", "secret", "us", "oldtoken", none, some 0⟩

end TuyaMonitor

namespace TuyaMonitor

/-! ## Theorems -/

set_option maxRecDepth 100000

/-- C1, counterexample: the claim states that the device-request signature is
HMAC-SHA256 over the canonical string access_token ++ timestamp_ms, but
get_device_sign, the signer the coordinator uses for device requests, signs
client_id + access_token + t; at this concrete input the two differ. -/
theorem device_sign_claim_counterexample :
    get_device_sign "clientid" "accesstoken" "secret" "1700000000000" ≠
      sign_device_request "clientid" "accesstoken" "secret" "1700000000000" := by
  decide

/-- C1, amended: the device-request signature computed by get_device_sign is
HMAC-SHA256 keyed by the client secret over the canonical string
client_id ++ access_token ++ timestamp_ms, hex-encoded and upper-cased;
the generate_sign of config_flow.py (unused for the coordinator's device
requests) does compute the claim's access_token ++ timestamp_ms form. -/
theorem device_sign_canonical_string :
    ∀ client_id access_token client_secret timestamp_ms : String,
      get_device_sign client_id access_token client_secret timestamp_ms =
        sign_device_request_amended client_id access_token client_secret timestamp_ms ∧
      config_flow_generate_sign client_secret access_token timestamp_ms =
        sign_device_request client_id access_token client_secret timestamp_ms :=
  fun _ _ _ _ => ⟨rfl, rfl⟩

/-- C5: the token-request signature, both in token_manager.generate_sign and
in the inline signing of config_flow.get_new_token, is the base64 encoding of
the raw HMAC-SHA256 digest, keyed by client_secret, of the canonical string
client_id ++ timestamp_ms ++ nonce. -/
theorem token_sign_matches_spec :
    ∀ client_id client_secret timestamp_ms nonce : String,
      generate_sign client_id client_secret timestamp_ms nonce =
        sign_token_request client_id client_secret timestamp_ms nonce ∧
      config_flow_token_sign client_id client_secret timestamp_ms nonce =
        sign_token_request client_id client_secret timestamp_ms nonce :=
  fun _ _ _ _ => ⟨rfl, rfl⟩

/-- C9: both the token-endpoint and the device-endpoint base URL come from
the same four-entry region table, and any region string outside
us, eu, cn, in falls back to the us base URL. -/
theorem region_base_url_selection :
    ∀ region : String,
      (region = "us" → tokenBaseUrl region = "https://openapi.tuyaus.com" ∧
        deviceBaseUrl (some region) = "https://openapi.tuyaus.com") ∧
      (region = "eu" → tokenBaseUrl region = "https://openapi.tuyaeu.com" ∧
        deviceBaseUrl (some region) = "https://openapi.tuyaeu.com") ∧
      (region = "cn" → tokenBaseUrl region = "https://openapi.tuyacn.com" ∧
        deviceBaseUrl (some region) = "https://openapi.tuyacn.com") ∧
      (region = "in" → tokenBaseUrl region = "https://openapi.tuyain.com" ∧
        deviceBaseUrl (some region) = "https://openapi.tuyain.com") ∧
      (region ≠ "us" → region ≠ "eu" → region ≠ "cn" → region ≠ "in" →
        tokenBaseUrl region = "https://openapi.tuyaus.com" ∧
        deviceBaseUrl (some region) = "https://openapi.tuyaus.com") := by
  intro region
  refine ⟨?_, ?_, ?_, ?_, ?_⟩
  · rintro rfl; exact ⟨rfl, rfl⟩
  · rintro rfl; exact ⟨rfl, rfl⟩
  · rintro rfl; exact ⟨rfl, rfl⟩
  · rintro rfl; exact ⟨rfl, rfl⟩
  · intro h1 h2 h3 h4
    have e1 : (region == "us") = false := by simp [h1]
    have e2 : (region == "eu") = false := by simp [h2]
    have e3 : (region == "cn") = false := by simp [h3]
    have e4 : (region == "in") = false := by simp [h4]
    constructor
    · simp [tokenBaseUrl, TUYA_REGION_ENDPOINTS, List.lookup, e1, e2, e3, e4]
    · simp [deviceBaseUrl, coordinator_region_map, List.lookup, e1, e2, e3, e4]

/-- C9 witness: an unknown region br falls back to the us base URL, and eu
maps to its own base URL. -/
theorem region_base_url_selection_witness :
    (tokenBaseUrl "br" = "https://openapi.tuyaus.com" ∧
      deviceBaseUrl (some "br") = "https://openapi.tuyaus.com") ∧
    (tokenBaseUrl "eu" = "https://openapi.tuyaeu.com" ∧
      deviceBaseUrl (some "eu") = "https://openapi.tuyaeu.com") :=
  ⟨(region_base_url_selection "br").2.2.2.2 (by decide) (by decide) (by decide) (by decide),
   (region_base_url_selection "eu").2.1 rfl⟩

/-- C7: the coordinator has no single-flight coordination. Two poll cycles
(two devices sharing the one config) that both read the near-expiry
credential in the same window, before either token installation lands, each
issue their own refresh network call: the trace holds two token-endpoint
calls where the claim demands exactly one. Both cycles here observe
expiration instant 1 at now = 1000 and both refreshes succeed. -/
theorem concurrent_cycles_duplicate_refresh :
    countTokenCalls
      (twoCycleCalls cfgNear [] [] 1000 tokenRespOK tokenRespOK
        ⟨false, 200, true, true, some ⟨"A3", "R3", some 7200⟩⟩
        ⟨false, 200, true, true, some ⟨"A3", "R3", some 7200⟩⟩
        devRespEmpty devRespEmpty) = 2 := by
  decide

/-- C2, counterexample: at now = 0 against expiration instant 300 the
claim's guard now + 300 < E is false, so the claim requires the cycle to
initiate a refresh before fetching; the code compares with strict greater
than and performs no token call at this boundary input. -/
theorem fast_path_boundary_counterexample :
    ¬ ((0 : Int) + 300 < 300) ∧
    (asyncUpdateData ⟨"clientid", "secret", "us", "oldtoken", some "refreshtoken", some 300⟩
        [] 0 tokenRespOK tokenRespOK devRespEmpty).calls = [NetCall.deviceFetch] := by
  decide

/-- C2, amended: if now + 300 is at most the stored expiry instant E the
cycle performs no token network call and proceeds with the current
credential; if now + 300 exceeds E it performs token calls before the device
fetch (a refresh, a re-authentication, or both in that order). -/
theorem fast_path_refresh_threshold (cfg : TuyaConfig) (props : List String)
    (now E : Int) (refreshResp newTokenResp : TokenResponse) (devResp : DeviceResponse)
    (hE : cfg.token_expiration = some E) :
    (now + 300 ≤ E →
      (asyncUpdateData cfg props now refreshResp newTokenResp devResp).calls =
        [NetCall.deviceFetch] ∧
      (asyncUpdateData cfg props now refreshResp newTokenResp devResp).config = cfg ∧
      (asyncUpdateData cfg props now refreshResp newTokenResp devResp).fetch_access_token =
        cfg.access_token) ∧
    (now + 300 > E →
      (asyncUpdateData cfg props now refreshResp newTokenResp devResp).calls =
          [NetCall.refreshToken, NetCall.deviceFetch] ∨
      (asyncUpdateData cfg props now refreshResp newTokenResp devResp).calls =
          [NetCall.newToken, NetCall.deviceFetch] ∨
      (asyncUpdateData cfg props now refreshResp newTokenResp devResp).calls =
          [NetCall.refreshToken, NetCall.newToken, NetCall.deviceFetch]) := by
  constructor
  · intro h
    have hm : tokenMaintenance cfg now refreshResp newTokenResp = (cfg, []) := by
      unfold tokenMaintenance
      rw [hE]
      exact if_neg (by simp; omega)
    simp [asyncUpdateData, hm]
  · intro h
    unfold asyncUpdateData tokenMaintenance
    rw [hE]
    rw [if_pos (by simp; omega)]
    rcases hrt : cfg.refresh_token with _ | rt
    · rcases hg : get_new_token cfg.client_id cfg.client_secret cfg.region newTokenResp now with
        _ | info <;> simp [hg]
    · rcases hr : refresh_tuya_token cfg.client_id cfg.client_secret rt cfg.region refreshResp now
        with _ | info
      · rcases hg : get_new_token cfg.client_id cfg.client_secret cfg.region newTokenResp now with
          _ | info <;> simp [hr, hg]
      · simp [hr]

/-- C2 witness: with expiry instant 1000 at now = 0 the fast path holds: the
only network call is the device fetch and the config and signing token are
the stored ones. -/
theorem fast_path_refresh_threshold_witness :
    (asyncUpdateData cfgFast [] 0 tokenRespOK tokenRespOK devRespEmpty).calls =
      [NetCall.deviceFetch] ∧
    (asyncUpdateData cfgFast [] 0 tokenRespOK tokenRespOK devRespEmpty).config = cfgFast ∧
    (asyncUpdateData cfgFast [] 0 tokenRespOK tokenRespOK devRespEmpty).fetch_access_token =
      cfgFast.access_token :=
  (fast_path_refresh_threshold cfgFast [] 0 1000 tokenRespOK tokenRespOK devRespEmpty rfl).1
    (by decide)

/-- C3: in a near-expiry cycle where the refresh operation fails or no
refresh token is stored, get_new_token is invoked; and when that fails too,
the config leaves the cycle exactly as it entered it. -/
theorem refresh_fallback_preserves_store (cfg : TuyaConfig) (props : List String)
    (now : Int) (refreshResp newTokenResp : TokenResponse) (devResp : DeviceResponse)
    (hexp : now + 300 > cfg.token_expiration.getD 0)
    (hfail : cfg.refresh_token = none ∨
      ∀ rt, cfg.refresh_token = some rt →
        refresh_tuya_token cfg.client_id cfg.client_secret rt cfg.region refreshResp now = none) :
    NetCall.newToken ∈ (asyncUpdateData cfg props now refreshResp newTokenResp devResp).calls ∧
    (get_new_token cfg.client_id cfg.client_secret cfg.region newTokenResp now = none →
      (asyncUpdateData cfg props now refreshResp newTokenResp devResp).config = cfg) := by
  unfold asyncUpdateData tokenMaintenance
  rw [if_pos hexp]
  rcases hrt : cfg.refresh_token with _ | rt
  · rcases hg : get_new_token cfg.client_id cfg.client_secret cfg.region newTokenResp now with
      _ | info <;> simp [hg]
  · have hr := (hfail.resolve_left (by simp [hrt])) rt hrt
    rcases hg : get_new_token cfg.client_id cfg.client_secret cfg.region newTokenResp now with
      _ | info <;> simp [hr, hg]

/-- C3 witness: a near-expiry config without refresh token, against a token
endpoint answering 404: the cycle calls get_new_token and the config is
unchanged. -/
theorem refresh_fallback_preserves_store_witness :
    NetCall.newToken ∈
      (asyncUpdateData cfgNoRefresh [] 0 tokenRespBad tokenRespBad devRespEmpty).calls ∧
    (asyncUpdateData cfgNoRefresh [] 0 tokenRespBad tokenRespBad devRespEmpty).config =
      cfgNoRefresh :=
  have h := refresh_fallback_preserves_store cfgNoRefresh [] 0 tokenRespBad tokenRespBad
    devRespEmpty (by decide) (Or.inl rfl)
  ⟨h.1, h.2 (by decide)⟩

/-- A foldl that conditionally appends one transformed element per item is
the filtered map of the traversed list onto the accumulator. -/
theorem foldl_if_append {α β : Type} (p : α → Bool) (g : α → β) :
    ∀ (l : List α) (acc : List β),
      List.foldl (fun a x => if p x then a ++ [g x] else a) acc l =
        acc ++ (l.filter p).map g := by
  intro l
  induction l with
  | nil => intro acc; simp
  | cons x xs ih =>
    intro acc
    by_cases hx : p x
    · simp [List.foldl_cons, hx, ih, List.filter_cons]
    · simp [List.foldl_cons, hx, ih, List.filter_cons]

/-- The filtering loop equals the specification's formulation: all items
projected to readings when no properties are configured, else exactly the
items whose code is among the configured properties, in response order. -/
theorem filterStatusItems_spec (props : List String) (result : List StatusItem) :
    filterStatusItems props result =
      if props = [] then result.map (fun it => (⟨it.code, it.value⟩ : PropReading))
      else (result.filter (fun it => codeMatches props it.code)).map
          (fun it => (⟨it.code, it.value⟩ : PropReading)) := by
  have key := foldl_if_append
    (fun it : StatusItem => !(decide (props.length > 0)) || codeMatches props it.code)
    (fun it : StatusItem => (⟨it.code, it.value⟩ : PropReading)) result []
  rcases props with _ | ⟨p, ps⟩
  · simp only [filterStatusItems] at key ⊢
    rw [key]
    simp
  · simp only [filterStatusItems] at key ⊢
    rw [key]
    simp

/-- C4: under a well-formed successful device response, the cycle's result
is the specification's filtering: every reading of the response when the
requested set is empty, else exactly the readings whose code is in the set,
preserving response order. -/
theorem fetch_properties_filtering (cfg : TuyaConfig) (props : List String) (now : Int)
    (refreshResp newTokenResp : TokenResponse) (devResp : DeviceResponse)
    (h1 : devResp.transportError = false) (h2 : devResp.status = 200)
    (h3 : devResp.jsonOk = true) (h4 : devResp.success = true) :
    (asyncUpdateData cfg props now refreshResp newTokenResp devResp).result =
      UpdateResult.data
        (if props = [] then devResp.result.map (fun it => (⟨it.code, it.value⟩ : PropReading))
         else (devResp.result.filter (fun it => codeMatches props it.code)).map
            (fun it => (⟨it.code, it.value⟩ : PropReading))) := by
  show deviceOutcome props devResp = _
  unfold deviceOutcome
  rw [if_neg (by simp [h1]), if_neg (by simp [h2]), if_neg (by simp [h3]), if_neg (by simp [h4])]
  by_cases he : devResp.result.isEmpty
  · rw [if_pos he]
    have hnil : devResp.result = [] := by
      cases hres : devResp.result
      · rfl
      · rw [hres] at he; simp at he
    rw [hnil]
    cases props <;> simp
  · rw [if_neg he, filterStatusItems_spec]

/-- C4 witness: the specification's own example: requested codes temp and
humidity against a response reporting temp, humidity and battery give
exactly the two requested readings, in response order. -/
theorem fetch_properties_filtering_witness :
    (asyncUpdateData cfgFast ["temp", "humidity"] 0 tokenRespOK tokenRespOK devRespThree).result =
      UpdateResult.data
        [⟨some "temp", some "21"⟩, ⟨some "humidity", some "40"⟩] :=
  (fetch_properties_filtering cfgFast ["temp", "humidity"] 0 tokenRespOK tokenRespOK devRespThree
    rfl rfl rfl rfl).trans (by decide)

/-- C6: each of transport error, non-200 status, JSON decode failure, false
success flag, and missing-or-empty result makes both token operations return
the failure value none; as total functions into an option type they return a
credential dict or none on every input and never escape with an exception. -/
theorem token_ops_fail_closed (client_id client_secret refresh_token region : String)
    (resp : TokenResponse) (now : Int)
    (h : resp.transportError = true ∨ resp.status ≠ 200 ∨ resp.jsonOk = false ∨
      resp.success = false ∨ resp.result = none) :
    refresh_tuya_token client_id client_secret refresh_token region resp now = none ∧
    get_new_token client_id client_secret region resp now = none := by
  rcases resp with ⟨te, st, jo, su, res⟩
  constructor
  · unfold refresh_tuya_token
    rcases res with _ | r <;> split_ifs <;> simp_all
  · unfold get_new_token
    rcases res with _ | r <;> split_ifs <;> simp_all

/-- C6 witness: a 404 answer with no result object makes both operations
return none. -/
theorem token_ops_fail_closed_witness :
    refresh_tuya_token "clientid" "secret" "refreshtoken" "us" tokenRespBad 0 = none ∧
    get_new_token "clientid" "secret" "us" tokenRespBad 0 = none :=
  token_ops_fail_closed "clientid" "secret" "refreshtoken" "us" tokenRespBad 0
    (Or.inr (Or.inl (by decide)))

/-- A successful refresh carries expiration_time = now + expire_time. -/
theorem refresh_some_expiration (cid sec rt reg : String) (resp : TokenResponse) (now : Int)
    (info : TokenInfo)
    (h : refresh_tuya_token cid sec rt reg resp now = some info) :
    info.expiration_time = now + info.expire_time := by
  rcases resp with ⟨te, st, jo, su, _ | ⟨a, r2, _ | e⟩⟩ <;>
    · unfold refresh_tuya_token at h
      split_ifs at h <;> simp_all
      try (obtain rfl := h; rfl)

/-- A successful new-token call carries expiration_time = now + expire_time. -/
theorem newtoken_some_expiration (cid sec reg : String) (resp : TokenResponse) (now : Int)
    (info : TokenInfo)
    (h : get_new_token cid sec reg resp now = some info) :
    info.expiration_time = now + info.expire_time := by
  rcases resp with ⟨te, st, jo, su, _ | ⟨a, r2, _ | e⟩⟩ <;>
    · unfold get_new_token at h
      split_ifs at h <;> simp_all
      try (obtain rfl := h; rfl)

/-- C8: a credential installed by a successful obtain or refresh stores the
expiration instant now + expire_time computed when it is installed, and a
cycle either leaves the stored expiration instant untouched or sets it to
exactly such an install-time value. -/
theorem expiration_set_at_install (cfg : TuyaConfig) (props : List String) (now : Int)
    (refreshResp newTokenResp : TokenResponse) (devResp : DeviceResponse) :
    (∀ rt info,
      refresh_tuya_token cfg.client_id cfg.client_secret rt cfg.region refreshResp now =
        some info → info.expiration_time = now + info.expire_time) ∧
    (∀ info,
      get_new_token cfg.client_id cfg.client_secret cfg.region newTokenResp now = some info →
        info.expiration_time = now + info.expire_time) ∧
    ((asyncUpdateData cfg props now refreshResp newTokenResp devResp).config.token_expiration =
        cfg.token_expiration ∨
      ∃ info : TokenInfo,
        ((∃ rt, cfg.refresh_token = some rt ∧
            refresh_tuya_token cfg.client_id cfg.client_secret rt cfg.region refreshResp now =
              some info) ∨
          get_new_token cfg.client_id cfg.client_secret cfg.region newTokenResp now = some info) ∧
        (asyncUpdateData cfg props now refreshResp newTokenResp devResp).config.token_expiration =
          some info.expiration_time ∧
        info.expiration_time = now + info.expire_time) := by
  refine ⟨fun rt info h => refresh_some_expiration _ _ _ _ _ _ _ h,
    fun info h => newtoken_some_expiration _ _ _ _ _ _ h, ?_⟩
  unfold asyncUpdateData tokenMaintenance
  by_cases hb : now + 300 > cfg.token_expiration.getD 0
  · rw [if_pos hb]
    rcases hrt : cfg.refresh_token with _ | rt
    · rcases hg : get_new_token cfg.client_id cfg.client_secret cfg.region newTokenResp now with
        _ | info
      · left; simp [hg]
      · right
        exact ⟨info, Or.inr (by simp [hg]), by simp [hg, installTokenInfo],
          newtoken_some_expiration _ _ _ _ _ _ hg⟩
    · rcases hr : refresh_tuya_token cfg.client_id cfg.client_secret rt cfg.region refreshResp now
        with _ | info
      · rcases hg : get_new_token cfg.client_id cfg.client_secret cfg.region newTokenResp now with
          _ | info2
        · left; simp [hr, hg]
        · right
          exact ⟨info2, Or.inr (by simp [hg]), by simp [hr, hg, installTokenInfo],
            newtoken_some_expiration _ _ _ _ _ _ hg⟩
      · right
        exact ⟨info, Or.inl ⟨rt, by simp [hrt], by simp [hr]⟩,
          by simp [hr, installTokenInfo],
          refresh_some_expiration _ _ _ _ _ _ _ hr⟩
  · rw [if_neg hb]; left; rfl

/-- C8 witness: a successful obtain at now = 100 with ttl 7200 installs the
expiration instant 7300. -/
theorem expiration_set_at_install_witness :
    get_new_token "clientid" "secret" "us" tokenRespOK 100 =
      some ⟨"A2", "R2", 7200, 7300⟩ ∧
    (⟨"A2", "R2", 7200, 7300⟩ : TokenInfo).expiration_time =
      100 + (⟨"A2", "R2", 7200, 7300⟩ : TokenInfo).expire_time :=
  ⟨by decide,
   (expiration_set_at_install cfgFast [] 100 tokenRespOK tokenRespOK devRespEmpty).2.1
     ⟨"A2", "R2", 7200, 7300⟩ (by decide)⟩

/-- C10: a device response with status 200, success true and an empty (or
missing, parsed with default empty) result list yields the successful empty
property list, and every sensor's value over that data is absent. -/
theorem empty_result_yields_no_readings (cfg : TuyaConfig) (props : List String) (now : Int)
    (refreshResp newTokenResp : TokenResponse) (devResp : DeviceResponse)
    (h1 : devResp.transportError = false) (h2 : devResp.status = 200)
    (h3 : devResp.jsonOk = true) (h4 : devResp.success = true)
    (h5 : devResp.result = []) :
    (asyncUpdateData cfg props now refreshResp newTokenResp devResp).result =
      UpdateResult.data [] ∧
    ∀ property_code : String,
      native_value
        (coordinatorData
          (asyncUpdateData cfg props now refreshResp newTokenResp devResp).result)
        property_code = none := by
  have hres : (asyncUpdateData cfg props now refreshResp newTokenResp devResp).result =
      UpdateResult.data [] := by
    show deviceOutcome props devResp = _
    unfold deviceOutcome
    rw [if_neg (by simp [h1]), if_neg (by simp [h2]), if_neg (by simp [h3]),
      if_neg (by simp [h4]), if_pos (by simp [h5])]
  exact ⟨hres, fun c => by rw [hres]; rfl⟩

/-- C10 witness: the empty-result response gives the empty property list and
an absent value for the temp sensor. -/
theorem empty_result_yields_no_readings_witness :
    (asyncUpdateData cfgFast [] 0 tokenRespOK tokenRespOK devRespEmpty).result =
      UpdateResult.data [] ∧
    native_value
      (coordinatorData (asyncUpdateData cfgFast [] 0 tokenRespOK tokenRespOK devRespEmpty).result)
      "temp" = none :=
  have h := empty_result_yields_no_readings cfgFast [] 0 tokenRespOK tokenRespOK devRespEmpty
    rfl rfl rfl rfl rfl
  ⟨h.1, h.2 "temp"⟩

end TuyaMonitor
